import Mathlib

/-!
Shallow embedding of the graphics asset compositor and layout/plotting engine
of the CT5061-IoT repository, together with proofs settling the frozen claims.

Conventions of the embedding:
- C++ `int`, `int16_t` and `uint8_t` values are modelled as `Int` (the programs
  in scope never reach the 16/32-bit wrap boundaries on the inputs the claims
  quantify over, and indices into stores are guarded before use).
- C++ `float` values are modelled as `ℚ` (exact arithmetic); the non-finite
  float values NaN/Inf are modelled by `Option ℚ` results (`none` = NaN/Inf)
  where the source tests `isnan`/`isinf`.
- a C cast `(int16_t)q` / `(int)q` of a float truncates toward zero; this is
  `ftrunc` below.  C++ integer division also truncates toward zero; this is
  `Int.div` in Lean.
- pointers that may be null are modelled as `Option`; drawing calls are
  modelled by the list of draw commands they would issue.
-/

namespace CT5061

/-- Truncation of a rational toward zero, as performed by a C cast from a
floating-point value to an integer type (`Int.tdiv` truncates toward zero). -/
def ftrunc (q : ℚ) : Int := Int.tdiv q.num (q.den : Int)

/-! ## GraphicsAsset (GraphicsAsset.hpp / GraphicsAsset.cpp)

Only the fields consulted by the compositor claims are carried.  The `tag`
field models pointer identity of the caller-owned asset, so that distinct
assets with equal attributes stay distinguishable in the collection. -/

structure GraphicsAsset where
  x : Int
  y : Int
  width : Int
  height : Int
  visible : Bool
  border : Bool
  animate : Bool
  zIndex : Int
  tag : Nat
deriving DecidableEq, Repr

/-- Constructor defaults of `GraphicsAsset` (GraphicsAsset.cpp): visible, no
border, no animation, z-index 0. -/
def GraphicsAsset.init (x y width height : Int) (tag : Nat) : GraphicsAsset :=
  { x := x, y := y, width := width, height := height,
    visible := true, border := false, animate := false, zIndex := 0, tag := tag }

/-! ## Compositor: LedScreen128_64 asset management (Table.cpp second unit,
LedScreen128_64.hpp) -/

/-- Fixed capacity of the asset collection (`#define MAX_SCREEN_ASSETS 20`). -/
def MAX_SCREEN_ASSETS : Nat := 20

/-- State of the compositor relevant to asset management: the display-ready
flag checked by `drawAssets`, and the ordered collection of registered asset
references (`std::vector<GraphicsAsset*> assets`; the vector never holds a
null pointer because `addAsset` rejects null). -/
structure LedScreen128_64 where
  display_initialized : Bool
  assets : List GraphicsAsset
deriving DecidableEq, Repr

/-- Model of `LedScreen128_64::addAsset`: a null asset is rejected; when the
collection already holds `MAX_SCREEN_ASSETS` references the add fails; the
successful case appends.  The returned pair is (result, new state). -/
def LedScreen128_64.addAsset (s : LedScreen128_64) (asset : Option GraphicsAsset) :
    Bool × LedScreen128_64 :=
  match asset with
  | none => (false, s)
  | some a =>
    if MAX_SCREEN_ASSETS ≤ s.assets.length then (false, s)
    else (true, { s with assets := s.assets ++ [a] })

/-- Insertion of one asset into a list already sorted by ascending z-index,
using the comparator of `LedScreen128_64::drawAssets`
(`a->getZIndex() < b->getZIndex()`; the null branches of the comparator are
unreachable because the collection holds no null). -/
def insertByZ (a : GraphicsAsset) : List GraphicsAsset → List GraphicsAsset
  | [] => [a]
  | b :: rest => if a.zIndex < b.zIndex then a :: b :: rest else b :: insertByZ a rest

/-- Sorting of the collection by ascending z-index, modelling the `std::sort`
call of `LedScreen128_64::drawAssets`.  `std::sort` leaves the order of
z-index ties unspecified; this insertion sort produces one of the
permutations sorted under the same comparator. -/
def sortByZ : List GraphicsAsset → List GraphicsAsset
  | [] => []
  | a :: rest => insertByZ a (sortByZ rest)

/-- Model of `LedScreen128_64::drawAssets`: nothing is drawn when the display
is not initialized; otherwise the collection is sorted by ascending z-index
and the visible assets are drawn in that order.  The result is the sequence of
assets whose `draw` is invoked, in invocation order. -/
def LedScreen128_64.drawAssets (s : LedScreen128_64) : List GraphicsAsset :=
  if s.display_initialized then (sortByZ s.assets).filter (fun a => a.visible) else []

/-! ## Table (Table.hpp / Table.cpp)

The cell store is the row-major 1-D array `String cells[rows * cols]`,
modelled as a list; `colWidths` is the parallel per-column pixel-width array.
Display-only options that no claim consults (text size, header/grid flags,
row height) are omitted. -/

structure Table where
  x : Int
  y : Int
  width : Int
  height : Int
  rows : Int
  cols : Int
  cells : List String
  colWidths : List Int
deriving DecidableEq, Repr

/-- Model of `Table::getCellIndex`: the row-major index when `(row, col)` is
within bounds, `-1` otherwise. -/
def Table.getCellIndex (t : Table) (row col : Int) : Int :=
  if 0 ≤ row ∧ row < t.rows ∧ 0 ≤ col ∧ col < t.cols then row * t.cols + col else -1

/-- Model of `Table::setCell` (the `const char*` / `String` overloads store the
text verbatim): the cell at a valid index is overwritten with the exact text;
an invalid index leaves the store untouched. -/
def Table.setCell (t : Table) (row col : Int) (text : String) : Table :=
  let index := t.getCellIndex row col
  if 0 ≤ index then { t with cells := t.cells.set index.toNat text } else t

/-- Model of `Table::getCell`: the stored text at a valid index, the empty
string for an out-of-bounds `(row, col)`.  `List.getD` with default `""`
matches the in-bounds array read because the store always holds
`rows * cols` entries. -/
def Table.getCell (t : Table) (row col : Int) : String :=
  let index := t.getCellIndex row col
  if 0 ≤ index then t.cells.getD index.toNat "" else ""

/-- Model of `Table::calculateColumnWidths`: the interior width
(`width - 2`) is divided by `cols` with C++ truncating division, every column
receives the quotient, and the remainder is added to the last column only when
it is positive. -/
def Table.calculateColumnWidths (t : Table) : Table :=
  if t.cols = 0 then t
  else
    let availableWidth := t.width - 2
    let equalWidth := Int.tdiv availableWidth t.cols
    let base := List.replicate t.cols.toNat equalWidth
    let remainder := availableWidth - equalWidth * t.cols
    if 0 < remainder ∧ 0 < t.cols then
      { t with colWidths := base.set (t.cols.toNat - 1) (equalWidth + remainder) }
    else
      { t with colWidths := base }

/-- Column widths as the words of claim C5 prescribe them: the interior width
is divided evenly across the columns and the integer remainder of the division
is added (unconditionally) to the last column's width.  This definition is
written from the spec sentence, to be compared with
`Table.calculateColumnWidths` from the source. -/
def specColumnWidths (width cols : Int) : List Int :=
  let availableWidth := width - 2
  let equalWidth := Int.tdiv availableWidth cols
  let remainder := availableWidth - equalWidth * cols
  List.replicate (cols.toNat - 1) equalWidth ++ [equalWidth + remainder]

/-- Constructor state of a `Table` with `rows > 0` and `cols > 0`
(Table.cpp): all cells empty, column widths assigned by
`calculateColumnWidths` because `autoFitColumns` starts true. -/
def Table.init (x y width height rows cols : Int) : Table :=
  Table.calculateColumnWidths
    { x := x, y := y, width := width, height := height, rows := rows, cols := cols,
      cells := List.replicate (rows.toNat * cols.toNat) "",
      colWidths := List.replicate cols.toNat 0 }

/-! ## DataPlot (DataPlot.hpp / DataPlot.cpp, the unit with axis labels)

The parallel arrays `dataX`/`dataY` with `dataSize` are modelled as one list
of pairs of length `dataSize`; `dataCapacity` is the allocation size.
Display options that no claim consults (plot style, axes/grid flags, tick and
tiny-label options) are omitted. -/

structure DataPlot where
  x : Int
  y : Int
  width : Int
  height : Int
  visible : Bool
  border : Bool
  animate : Bool
  zIndex : Int
  data : List (ℚ × ℚ)
  dataCapacity : Nat
  minX : ℚ
  maxX : ℚ
  minY : ℚ
  maxY : ℚ
  autoScale : Bool
  animationFrame : Nat
deriving DecidableEq, Repr

/-- Constructor state of `DataPlot` (DataPlot.cpp): empty data series, domain
`[0,100] × [0,100]`, auto-scale on, animation frame 0. -/
def DataPlot.init (x y width height : Int) (capacity : Nat) : DataPlot :=
  { x := x, y := y, width := width, height := height,
    visible := true, border := false, animate := false, zIndex := 0,
    data := [], dataCapacity := capacity,
    minX := 0, maxX := 100, minY := 0, maxY := 100,
    autoScale := true, animationFrame := 0 }

/-- Model of `DataPlot::addPoint`: below capacity the point is appended; at
capacity every element is shifted left one position and the new point is
stored at the last index.  (With the length-equals-`dataSize` invariant and a
positive capacity, the shift loop plus final store is `tail ++ [point]`.) -/
def DataPlot.addPoint (p : DataPlot) (px py : ℚ) : DataPlot :=
  if p.data.length < p.dataCapacity then
    { p with data := p.data ++ [(px, py)] }
  else
    { p with data := p.data.tail ++ [(px, py)] }

/-- Model of `DataPlot::clearData`: resets `dataSize` to 0. -/
def DataPlot.clearData (p : DataPlot) : DataPlot :=
  { p with data := [] }

/-- Model of `DataPlot::setData`: clears, then copies the first
`min size capacity` points of the supplied series. -/
def DataPlot.setData (p : DataPlot) (points : List (ℚ × ℚ)) : DataPlot :=
  { p.clearData with data := points.take p.dataCapacity }

/-- Model of `DataPlot::setXRange`: the new bounds and the auto-scale reset
take effect only when `minX < maxX`. -/
def DataPlot.setXRange (p : DataPlot) (a b : ℚ) : DataPlot :=
  if a < b then { p with minX := a, maxX := b, autoScale := false } else p

/-- Model of `DataPlot::setYRange`: the new bounds and the auto-scale reset
take effect only when `minY < maxY`. -/
def DataPlot.setYRange (p : DataPlot) (a b : ℚ) : DataPlot :=
  if a < b then { p with minY := a, maxY := b, autoScale := false } else p

/-- Running minimum of a list of values with initial accumulator `v`,
mirroring the `if (dataX[i] < calcMinX) calcMinX = dataX[i];` scan of
`DataPlot::calculateRanges`. -/
def scanMin (v : ℚ) : List ℚ → ℚ
  | [] => v
  | a :: rest => scanMin (if a < v then a else v) rest

/-- Running maximum of a list of values with initial accumulator `v`,
mirroring the `if (dataX[i] > calcMaxX) calcMaxX = dataX[i];` scan of
`DataPlot::calculateRanges`. -/
def scanMax (v : ℚ) : List ℚ → ℚ
  | [] => v
  | a :: rest => scanMax (if v < a then a else v) rest

/-- Observed minimum of one coordinate (`f` selects the axis) over the
non-empty series `d :: rest`, as the scan loop of `DataPlot::calculateRanges`
computes it starting from element 0. -/
def obsMin (f : ℚ × ℚ → ℚ) (d : ℚ × ℚ) (rest : List (ℚ × ℚ)) : ℚ :=
  scanMin (f d) (rest.map f)

/-- Observed maximum of one coordinate over the non-empty series `d :: rest`,
as the scan loop of `DataPlot::calculateRanges` computes it. -/
def obsMax (f : ℚ × ℚ → ℚ) (d : ℚ × ℚ) (rest : List (ℚ × ℚ)) : ℚ :=
  scanMax (f d) (rest.map f)

/-- Effective axis range of `DataPlot::calculateRanges`: the observed range
`hi - lo`, replaced by the unit range `1.0` when it falls below the `0.0001f`
threshold (the degenerate-data guard). -/
def effRange (lo hi : ℚ) : ℚ :=
  if hi - lo < 1 / 10000 then 1 else hi - lo

/-- Model of `DataPlot::calculateRanges`: on a non-empty series the observed
min/max of each axis is scanned starting from element 0, an observed range
below the `0.0001f` threshold is replaced by the unit range `1.0`, and each
bound is pushed outward by 10% of the (possibly substituted) range.  An empty
series leaves the plot unchanged. -/
def DataPlot.calculateRanges (p : DataPlot) : DataPlot :=
  match p.data with
  | [] => p
  | d :: rest =>
    let calcMinX := obsMin Prod.fst d rest
    let calcMaxX := obsMax Prod.fst d rest
    let calcMinY := obsMin Prod.snd d rest
    let calcMaxY := obsMax Prod.snd d rest
    let paddingX := effRange calcMinX calcMaxX * (1 / 10)
    let paddingY := effRange calcMinY calcMaxY * (1 / 10)
    { p with minX := calcMinX - paddingX, maxX := calcMaxX + paddingX,
             minY := calcMinY - paddingY, maxY := calcMaxY + paddingY }

/-- Number of data points the plotting loop of `DataPlot::draw` iterates over
in one call (`maxPoints`): nothing when the draw returns early (hidden widget,
null screen modelled away, or empty series), the animation frame while the
reveal is in progress, the full series otherwise. -/
def DataPlot.drawRendered (p : DataPlot) : Nat :=
  if p.visible = false ∨ p.data.length = 0 then 0
  else if p.animate = true ∧ p.animationFrame < p.data.length then p.animationFrame
  else p.data.length

/-- Animation advance at the end of one `DataPlot::draw` call: the frame moves
up by one exactly while the reveal is in progress (`animate` set and frame
below the series length). -/
def DataPlot.drawAdvance (q : DataPlot) : DataPlot :=
  if q.animate = true ∧ q.animationFrame < q.data.length then
    { q with animationFrame := q.animationFrame + 1 }
  else q

/-- State update of one `DataPlot::draw` call (against a non-null screen): an
early return leaves the plot unchanged; otherwise auto-scaling recomputes the
domain, and the animation frame advances by one while the reveal is below the
series length. -/
def DataPlot.drawStep (p : DataPlot) : DataPlot :=
  if p.visible = false ∨ p.data.length = 0 then p
  else DataPlot.drawAdvance (if p.autoScale = true then p.calculateRanges else p)

/-! ## TextBox (TextBox.hpp / TextBox.cpp)

Formatting options that no claim consults (alignment, word wrap, fill, text
size) are omitted. -/

structure TextBox where
  x : Int
  y : Int
  width : Int
  height : Int
  visible : Bool
  border : Bool
  animate : Bool
  zIndex : Int
  text : String
  animationFrame : Nat
deriving DecidableEq, Repr

/-- Constructor state of `TextBox` (TextBox.cpp): the supplied text, animation
frame 0. -/
def TextBox.init (x y width height : Int) (text : String) : TextBox :=
  { x := x, y := y, width := width, height := height,
    visible := true, border := false, animate := false, zIndex := 0,
    text := text, animationFrame := 0 }

/-- Model of `TextBox::setText` (both overloads): stores the new text and
resets the animation frame to zero. -/
def TextBox.setText (t : TextBox) (text : String) : TextBox :=
  { t with text := text, animationFrame := 0 }

/-- Number of characters of the display string one `TextBox::draw` call hands
to the line renderer: nothing for a hidden widget, the animation frame while
the typewriter reveal is in progress, the full text otherwise. -/
def TextBox.drawRendered (t : TextBox) : Nat :=
  if t.visible = false then 0
  else if t.animate = true ∧ t.animationFrame < t.text.length then t.animationFrame
  else t.text.length

/-- State update of one `TextBox::draw` call (against a non-null screen): the
animation frame advances by one while the reveal is below the text length. -/
def TextBox.drawStep (t : TextBox) : TextBox :=
  if t.visible = false then t
  else if t.animate = true ∧ t.animationFrame < t.text.length then
    { t with animationFrame := t.animationFrame + 1 }
  else t

/-! ## FunctionPlot (FunctionPlot.hpp / FunctionPlot.cpp)

The plotted function `float (*)(float)` is modelled as `ℚ → Option ℚ`, where
`none` stands for a NaN or infinite result (the two cases the sampling loop
rejects with `isnan`/`isinf`); a null function pointer is `Option.none` at the
outer level.  Tick-label options that no claim consults are omitted;
`showAxisLabels` and `axisLabelSize` are kept because they shape the content
rectangle used by the sampling loop. -/

/-- Model of the `computeContentRectFP` helper of FunctionPlot.cpp (identical
to `computeContentRect` of DataPlot.cpp): padding of 2 on every side, widened
on the left and bottom when axis labels are shown, with the content width and
height clamped up to at least 1.  The result is
(contentX, contentY, contentW, contentH). -/
def computeContentRect (x y width height axisLabelSize : Int) (showAxisLabels : Bool) :
    Int × Int × Int × Int :=
  let leftPad : Int := if showAxisLabels then 6 * axisLabelSize + 4 else 2
  let rightPad : Int := 2
  let topPad : Int := 2
  let bottomPad : Int := if showAxisLabels then 8 * axisLabelSize + 4 else 2
  let contentW := width - leftPad - rightPad
  let contentH := height - topPad - bottomPad
  (x + leftPad, y + topPad,
   if contentW < 1 then 1 else contentW,
   if contentH < 1 then 1 else contentH)

structure FunctionPlot where
  x : Int
  y : Int
  width : Int
  height : Int
  visible : Bool
  border : Bool
  animate : Bool
  zIndex : Int
  function : Option (ℚ → Option ℚ)
  minX : ℚ
  maxX : ℚ
  minY : ℚ
  maxY : ℚ
  autoScaleY : Bool
  showAxisLabels : Bool
  axisLabelSize : Int
  animationFrame : Nat

/-- Constructor state of `FunctionPlot` (FunctionPlot.cpp): domain
`[-10,10] × [-10,10]`, auto-scale off, labels off at size 1, frame 0. -/
def FunctionPlot.init (x y width height : Int) (func : Option (ℚ → Option ℚ)) :
    FunctionPlot :=
  { x := x, y := y, width := width, height := height,
    visible := true, border := false, animate := false, zIndex := 0,
    function := func, minX := -10, maxX := 10, minY := -10, maxY := 10,
    autoScaleY := false, showAxisLabels := false, axisLabelSize := 1,
    animationFrame := 0 }

/-- Model of `FunctionPlot::setXRange`: the new bounds take effect only when
`minX < maxX` (this setter does not touch the auto-scale flag). -/
def FunctionPlot.setXRange (p : FunctionPlot) (a b : ℚ) : FunctionPlot :=
  if a < b then { p with minX := a, maxX := b } else p

/-- Model of `FunctionPlot::setYRange`: the new bounds and the auto-scale
reset take effect only when `minY < maxY`. -/
def FunctionPlot.setYRange (p : FunctionPlot) (a b : ℚ) : FunctionPlot :=
  if a < b then { p with minY := a, maxY := b, autoScaleY := false } else p

/-- Content rectangle of a `FunctionPlot`, as every drawing helper of
FunctionPlot.cpp recomputes it. -/
def FunctionPlot.contentRect (p : FunctionPlot) : Int × Int × Int × Int :=
  computeContentRect p.x p.y p.width p.height p.axisLabelSize p.showAxisLabels

/-- Model of `FunctionPlot::mapX`: affine map of a domain x-value onto the
content columns, with the C cast truncating toward zero. -/
def FunctionPlot.mapX (p : FunctionPlot) (fx : ℚ) : Int :=
  let r := p.contentRect
  r.1 + ftrunc ((fx - p.minX) / (p.maxX - p.minX) * ((r.2.2.1 : ℚ) - 1))

/-- Model of `FunctionPlot::mapY`: affine map of a domain y-value onto the
content rows, inverted because the screen y axis grows downward. -/
def FunctionPlot.mapY (p : FunctionPlot) (fy : ℚ) : Int :=
  let r := p.contentRect
  r.2.1 + r.2.2.2 - 1 - ftrunc ((fy - p.minY) / (p.maxY - p.minY) * ((r.2.2.2 : ℚ) - 1))

/-- Draw command issued by the sampling loop of `FunctionPlot::draw`: either a
connecting line between two screen points or an isolated pixel. -/
inductive PlotCmd where
  | line (x0 y0 x1 y1 : Int)
  | point (px py : Int)
deriving DecidableEq, Repr

/-- Loop state of the sampling loop of `FunctionPlot::draw`: the previous
screen point, whether the previous sample was valid, and the commands issued
so far in order. -/
structure SampleState where
  prevX : Int
  prevY : Int
  prevValid : Bool
  cmds : List PlotCmd
deriving DecidableEq, Repr

/-- Domain value sampled at content column `i` by `FunctionPlot::draw`:
`minX + (maxX - minX) * i / (contentW - 1)`. -/
def FunctionPlot.sampleX (p : FunctionPlot) (i : Nat) : ℚ :=
  p.minX + (p.maxX - p.minX) * (i : ℚ) / ((p.contentRect.2.2.1 : ℚ) - 1)

/-- One iteration of the sampling loop of `FunctionPlot::draw` for a function
`f`: a NaN/Inf result or a value outside the Y domain invalidates the sample;
a valid sample is connected to the previous screen point with a line exactly
when the previous sample was valid and the vertical pixel delta is below the
widget height, and is drawn as an isolated point otherwise. -/
def FunctionPlot.sampleStep (p : FunctionPlot) (f : ℚ → Option ℚ)
    (st : SampleState) (i : Nat) : SampleState :=
  let fx := p.sampleX i
  match f fx with
  | none => { st with prevValid := false }
  | some fy =>
    if fy < p.minY ∨ p.maxY < fy then { st with prevValid := false }
    else
      let screenX := p.mapX fx
      let screenY := p.mapY fy
      let cmds :=
        if st.prevValid = true ∧ |screenY - st.prevY| < p.height then
          st.cmds ++ [PlotCmd.line st.prevX st.prevY screenX screenY]
        else
          st.cmds ++ [PlotCmd.point screenX screenY]
      { prevX := screenX, prevY := screenY, prevValid := true, cmds := cmds }

/-- Number of content columns the sampling loop of one `FunctionPlot::draw`
call visits (`maxPixels`): nothing when the draw returns early (hidden widget
or null function), the animation frame while the reveal is below the content
width, the full content width otherwise. -/
def FunctionPlot.drawRendered (p : FunctionPlot) : Nat :=
  if p.visible = false ∨ p.function.isSome = false then 0
  else if p.animate = true ∧ (p.animationFrame : Int) < p.contentRect.2.2.1 then
    p.animationFrame
  else p.contentRect.2.2.1.toNat

/-- Draw commands issued by the sampling loop of one `FunctionPlot::draw`
call, in order (empty when the draw returns early). -/
def FunctionPlot.drawSamples (p : FunctionPlot) : List PlotCmd :=
  if p.visible = false then []
  else
    match p.function with
    | none => []
    | some f =>
      ((List.range p.drawRendered).foldl (p.sampleStep f)
        { prevX := -1, prevY := -1, prevValid := false, cmds := [] }).cmds

/-- State update of one `FunctionPlot::draw` call (against a non-null screen):
an early return leaves the plot unchanged; otherwise the animation frame
advances by one while the reveal is below the content width.  (Auto-scaling
is off in every state the claims quantify over, so `calculateYRange` is not
modelled.) -/
def FunctionPlot.drawStep (p : FunctionPlot) : FunctionPlot :=
  if p.visible = false ∨ p.function.isSome = false then p
  else if p.animate = true ∧ (p.animationFrame : Int) < p.contentRect.2.2.1 then
    { p with animationFrame := p.animationFrame + 1 }
  else p

/-! ## Sequences of range-setter calls (for the domain invariant of C10) -/

/-- One call of a range setter: `setXRange a b` or `setYRange a b`. -/
inductive RangeOp where
  | xRange (a b : ℚ)
  | yRange (a b : ℚ)
deriving DecidableEq, Repr

/-- Application of a sequence of range-setter calls to a `DataPlot`, in
order. -/
def DataPlot.applyRangeOps : DataPlot → List RangeOp → DataPlot
  | p, [] => p
  | p, RangeOp.xRange a b :: rest => (p.setXRange a b).applyRangeOps rest
  | p, RangeOp.yRange a b :: rest => (p.setYRange a b).applyRangeOps rest

/-- Application of a sequence of range-setter calls to a `FunctionPlot`, in
order. -/
def FunctionPlot.applyRangeOps : FunctionPlot → List RangeOp → FunctionPlot
  | p, [] => p
  | p, RangeOp.xRange a b :: rest => (p.setXRange a b).applyRangeOps rest
  | p, RangeOp.yRange a b :: rest => (p.setYRange a b).applyRangeOps rest

/-! ## Concrete states used by the scenario parts, witnesses and
counterexamples -/

/-- Compositor holding exactly 20 registered assets (its fixed capacity). -/
def screenFull : LedScreen128_64 :=
  { display_initialized := true,
    assets := (List.range 20).map fun i => GraphicsAsset.init 0 0 8 8 i }

/-- Asset offered to the full compositor as the 21st add. -/
def assetExtra : GraphicsAsset := GraphicsAsset.init 0 0 8 8 20

/-- Compositor with an empty collection. -/
def emptyScreen : LedScreen128_64 := { display_initialized := true, assets := [] }

/-- Visible asset with z-index 5, added first in the C2 scenario. -/
def asset5 : GraphicsAsset := { GraphicsAsset.init 0 0 10 10 100 with zIndex := 5 }

/-- Visible asset with z-index 1, added second in the C2 scenario. -/
def asset1 : GraphicsAsset := { GraphicsAsset.init 0 0 10 10 101 with zIndex := 1 }

/-- Data plot of capacity 3 (the C3 scenario). -/
def plot3 : DataPlot := DataPlot.init 0 0 64 32 3

/-- Table of 2 rows × 2 cols in a 100-pixel-wide box (the C5 scenario). -/
def table100 : Table := Table.init 0 0 100 50 2 2

/-- Table of 2 rows × 2 cols in a 101-pixel-wide box (the C5 scenario). -/
def table101 : Table := Table.init 0 0 101 50 2 2

/-- Table in a 1-pixel-wide box: the interior width is negative, so the
truncating division leaves a negative remainder (the C5 counterexample). -/
def tableW1 : Table := Table.init 0 0 1 50 1 2

/-- Table of 2 rows × 2 cols (C9 witness). -/
def table22 : Table := Table.init 0 0 100 50 2 2

/-- Reciprocal function `f(x) = 1/x` as sampled by the C6 scenario: division
by zero yields a non-finite float, hence `none`. -/
def recipFn : ℚ → Option ℚ := fun q => if q = 0 then none else some (1 / q)

/-- Function plot of `1/x` over the x-domain `[-100, 100]` spanning zero, with
the wide y-domain `[-1000, 1000]` (the C6 counterexample): both samples
straddling zero produce small in-range values. -/
def plotRecip : FunctionPlot :=
  { FunctionPlot.init 0 0 128 64 (some recipFn) with
    minX := -100, maxX := 100, minY := -1000, maxY := 1000 }

/-- Text box with the reveal animation enabled (C7 witness). -/
def boxAnim : TextBox := { TextBox.init 0 0 60 20 "hello" with animate := true }

/-- Data plot with two points and the reveal animation enabled (C7 witness). -/
def plotAnim : DataPlot :=
  { DataPlot.init 0 0 64 32 8 with data := [(1, 1), (2, 2)], animate := true }

/-- Function plot of the identity with the reveal animation enabled (C7
witness). -/
def funcAnim : FunctionPlot :=
  { FunctionPlot.init 0 0 64 32 (some fun q => some q) with animate := true }

/-- Data plot mid-animation (frame 2) holding one point (the C8
counterexample). -/
def plotFrame2 : DataPlot :=
  { DataPlot.init 0 0 64 32 3 with data := [(0, 0)], animationFrame := 2 }

/-! ## Binary32 semantics for the auto-scale padding (claim C4)

The embedding above uses exact rationals; the C++ code computes in IEEE-754
binary32, and for claim C4 the rounding is load-bearing: the padding applied
by `DataPlot::calculateRanges` can be absorbed entirely.  The relevant
pipeline is therefore also modelled under binary32 round-to-nearest-even
semantics.  A float is carried as an exact dyadic value `s·2^e`; `f32Round`
rounds a dyadic to 24 significand bits exactly as binary32 rounds results in
the normal range (the values of the C4 evaluation stay far from overflow and
from subnormals, where this model coincides with the hardware). -/

structure F32 where
  s : Int
  e : Int
deriving DecidableEq, Repr

def f32BitsAux : Nat → Nat → Nat
  | 0, _ => 0
  | fuel + 1, n => if n = 0 then 0 else f32BitsAux fuel (n / 2) + 1

/-- Number of binary digits of a natural number (fuel-bounded; the fuel
exceeds the width of every value this file evaluates). -/
def f32Bits (n : Nat) : Nat := f32BitsAux 300 n

/-- Round-to-nearest, ties-to-even, of the dyadic value `s·2^e` to 24
significand bits — binary32 rounding for results in the normal range. -/
def f32Round (s : Int) (e : Int) : F32 :=
  if s = 0 then ⟨0, 0⟩
  else
    let n := s.natAbs
    let L := f32Bits n
    if L ≤ 24 then ⟨s, e⟩
    else
      let shift := L - 24
      let q := n / 2 ^ shift
      let r := n % 2 ^ shift
      let half := 2 ^ (shift - 1)
      let rounded := if half < r ∨ (r = half ∧ q % 2 = 1) then q + 1 else q
      ⟨if s < 0 then -(rounded : Int) else (rounded : Int), e + (shift : Int)⟩

/-- Binary32 addition: the exact dyadic sum of the operands, rounded. -/
def F32.add (a b : F32) : F32 :=
  let e := min a.e b.e
  f32Round (a.s * 2 ^ (a.e - e).toNat + b.s * 2 ^ (b.e - e).toNat) e

/-- Binary32 subtraction. -/
def F32.sub (a b : F32) : F32 := F32.add a ⟨-b.s, b.e⟩

/-- Binary32 multiplication: the exact product of the operands, rounded. -/
def F32.mul (a b : F32) : F32 := f32Round (a.s * b.s) (a.e + b.e)

/-- Comparison of two binary32 values (float comparison is exact). -/
def F32.lt (a b : F32) : Bool :=
  let e := min a.e b.e
  decide (a.s * 2 ^ (a.e - e).toNat < b.s * 2 ^ (b.e - e).toNat)

/-- The float32 value 0.0f. -/
def f32_zero : F32 := ⟨0, 0⟩

/-- The float32 value 1.0f. -/
def f32_one : F32 := ⟨1, 0⟩

/-- The float32 literal `0.1f`: 13421773·2^-27, the binary32 value nearest
0.1 (0.1 itself is not representable). -/
def f32_tenth : F32 := ⟨13421773, -27⟩

/-- The float32 literal `0.0001f`: 13743895·2^-37, the binary32 value nearest
0.0001 — the negligibility threshold of `calculateRanges`. -/
def f32_threshold : F32 := ⟨13743895, -37⟩

/-- The float32 value 1e8f (100000000 = 12500000·2^3, exactly representable:
its ulp is 8). -/
def f32_1e8 : F32 := ⟨12500000, 3⟩

/-- Running minimum under binary32 comparison, mirroring the
`if (dataX[i] < calcMinX)` scan of `DataPlot::calculateRanges`. -/
def scanMinF (v : F32) : List F32 → F32
  | [] => v
  | a :: rest => scanMinF (if F32.lt a v then a else v) rest

/-- Running maximum under binary32 comparison, mirroring the
`if (dataX[i] > calcMaxX)` scan of `DataPlot::calculateRanges`. -/
def scanMaxF (v : F32) : List F32 → F32
  | [] => v
  | a :: rest => scanMaxF (if F32.lt v a then a else v) rest

/-- The range pipeline of `DataPlot::calculateRanges` under binary32
arithmetic: scan the observed min/max of each axis, substitute the unit range
when the observed range is below `0.0001f`, pad each bound outward by
`range * 0.1f`, and return ((minX, maxX), (minY, maxY)); `none` for an empty
series (the early return). -/
def calculateRangesF32 (data : List (F32 × F32)) :
    Option ((F32 × F32) × (F32 × F32)) :=
  match data with
  | [] => none
  | d :: rest =>
    let calcMinX := scanMinF d.1 (rest.map Prod.fst)
    let calcMaxX := scanMaxF d.1 (rest.map Prod.fst)
    let calcMinY := scanMinF d.2 (rest.map Prod.snd)
    let calcMaxY := scanMaxF d.2 (rest.map Prod.snd)
    let rangeX0 := F32.sub calcMaxX calcMinX
    let rangeY0 := F32.sub calcMaxY calcMinY
    let rangeX := if F32.lt rangeX0 f32_threshold then f32_one else rangeX0
    let rangeY := if F32.lt rangeY0 f32_threshold then f32_one else rangeY0
    let paddingX := F32.mul rangeX f32_tenth
    let paddingY := F32.mul rangeY f32_tenth
    some ((F32.sub calcMinX paddingX, F32.add calcMaxX paddingX),
          (F32.sub calcMinY paddingY, F32.add calcMaxY paddingY))

/-! ## Helper lemmas -/

theorem insertByZ_perm (a : GraphicsAsset) :
    ∀ l : List GraphicsAsset, (insertByZ a l).Perm (a :: l)
  | [] => List.Perm.refl _
  | b :: rest => by
    unfold insertByZ
    by_cases h : a.zIndex < b.zIndex
    · simp [h]
    · simp only [h, if_false]
      exact ((insertByZ_perm a rest).cons b).trans (List.Perm.swap a b rest)

theorem sortByZ_perm : ∀ l : List GraphicsAsset, (sortByZ l).Perm l
  | [] => List.Perm.refl _
  | a :: rest => (insertByZ_perm a (sortByZ rest)).trans ((sortByZ_perm rest).cons a)

theorem insertByZ_pairwise (a : GraphicsAsset) {l : List GraphicsAsset}
    (h : l.Pairwise fun u v => u.zIndex ≤ v.zIndex) :
    (insertByZ a l).Pairwise fun u v => u.zIndex ≤ v.zIndex := by
  induction l with
  | nil => simp [insertByZ]
  | cons b rest ih =>
    rw [List.pairwise_cons] at h
    unfold insertByZ
    by_cases hab : a.zIndex < b.zIndex
    · simp only [hab, if_true]
      refine List.Pairwise.cons ?_ (List.Pairwise.cons h.1 h.2)
      intro x hx
      rcases List.mem_cons.mp hx with rfl | hx'
      · exact le_of_lt hab
      · exact (le_of_lt hab).trans (h.1 x hx')
    · simp only [hab, if_false]
      refine List.Pairwise.cons ?_ (ih h.2)
      intro x hx
      rcases List.mem_cons.mp ((insertByZ_perm a rest).mem_iff.mp hx) with rfl | hx'
      · exact not_lt.mp hab
      · exact h.1 x hx'

theorem sortByZ_pairwise :
    ∀ l : List GraphicsAsset, (sortByZ l).Pairwise fun u v => u.zIndex ≤ v.zIndex
  | [] => List.Pairwise.nil
  | a :: rest => insertByZ_pairwise a (sortByZ_pairwise rest)

/-! ## Claim theorems -/

/-- C1: a compositor already holding its fixed capacity of 20 registered
assets rejects a further `addAsset` call — the call returns `false` and the
whole compositor state (the collection in particular) is unchanged — and
`addAsset` of a null asset likewise returns `false` and changes nothing. -/
theorem addAsset_capacity_C1 (s : LedScreen128_64) (a : GraphicsAsset)
    (hfull : s.assets.length = 20) :
    MAX_SCREEN_ASSETS = 20 ∧
    s.addAsset (some a) = (false, s) ∧
    s.addAsset none = (false, s) := by
  refine ⟨rfl, ?_, rfl⟩
  simp [LedScreen128_64.addAsset, hfull, MAX_SCREEN_ASSETS]

/-- C1 witness: the concrete compositor `screenFull` holds 20 assets and both
failing adds leave it unchanged. -/
theorem addAsset_capacity_C1_witness :
    screenFull.assets.length = 20 ∧
    screenFull.addAsset (some assetExtra) = (false, screenFull) ∧
    screenFull.addAsset none = (false, screenFull) :=
  ⟨by decide, (addAsset_capacity_C1 screenFull assetExtra (by decide)).2.1,
    (addAsset_capacity_C1 screenFull assetExtra (by decide)).2.2⟩

/-- C2: one `drawAssets` call on an initialized compositor draws assets in
ascending z-index order (the drawn sequence is pairwise ordered by z-index),
invokes draw only on assets whose visible flag is set, and draws exactly the
visible registered assets; in the concrete scenario where assets with z-index
5 and 1 are added in the order (5, 1), the z-index-1 asset is drawn first. -/
theorem drawAssets_zorder_C2 :
    (∀ s : LedScreen128_64, s.display_initialized = true →
      (s.drawAssets.Pairwise fun u v => u.zIndex ≤ v.zIndex) ∧
      (∀ a ∈ s.drawAssets, a.visible = true) ∧
      s.drawAssets.Perm (s.assets.filter fun a => a.visible)) ∧
    asset5.zIndex = 5 ∧ asset1.zIndex = 1 ∧
    (((emptyScreen.addAsset (some asset5)).2.addAsset (some asset1)).2.drawAssets
      = [asset1, asset5]) := by
  refine ⟨?_, rfl, rfl, by decide⟩
  intro s hs
  unfold LedScreen128_64.drawAssets
  rw [hs, if_pos rfl]
  refine ⟨(sortByZ_pairwise s.assets).filter _, ?_, (sortByZ_perm s.assets).filter _⟩
  intro a ha
  exact (List.mem_filter.mp ha).2

/-- C2 witness: the ordering, visibility and permutation properties
instantiated at the concrete full compositor. -/
theorem drawAssets_zorder_C2_witness :
    (screenFull.drawAssets.Pairwise fun u v => u.zIndex ≤ v.zIndex) ∧
    (∀ a ∈ screenFull.drawAssets, a.visible = true) ∧
    screenFull.drawAssets.Perm (screenFull.assets.filter fun a => a.visible) :=
  drawAssets_zorder_C2.1 screenFull rfl

/-- C3: an `addPoint` on a data plot whose buffer is at (positive) capacity
shifts every stored point left one position, stores the new point at the last
index, and leaves the length equal to the capacity; the concrete capacity-3
scenario receiving (0,0), (1,1), (2,2), (3,3) ends holding exactly
(1,1), (2,2), (3,3). -/
theorem addPoint_rolling_C3 (p : DataPlot) (px py : ℚ)
    (hcap : 0 < p.dataCapacity) (hfull : p.data.length = p.dataCapacity) :
    (p.addPoint px py).data = p.data.tail ++ [(px, py)] ∧
    (p.addPoint px py).data.length = p.dataCapacity ∧
    ((((plot3.addPoint 0 0).addPoint 1 1).addPoint 2 2).addPoint 3 3).data
      = [(1, 1), (2, 2), (3, 3)] := by
  have hnotlt : ¬ p.data.length < p.dataCapacity := by omega
  refine ⟨?_, ?_, by decide⟩
  · simp [DataPlot.addPoint, hnotlt]
  · simp [DataPlot.addPoint, hnotlt, List.length_tail]
    omega

/-- C3 witness: the rolling-buffer equation instantiated at the concrete
capacity-3 plot already holding three points. -/
theorem addPoint_rolling_C3_witness :
    ((((plot3.addPoint 0 0).addPoint 1 1).addPoint 2 2).addPoint 3 3).data
      = (((plot3.addPoint 0 0).addPoint 1 1).addPoint 2 2).data.tail ++ [(3, 3)] :=
  (addPoint_rolling_C3 (((plot3.addPoint 0 0).addPoint 1 1).addPoint 2 2) 3 3
    (by decide) (by decide)).1

theorem set_last_replicate :
    ∀ (m : Nat) (x v : Int),
      (List.replicate (m + 1) x).set m v = List.replicate m x ++ [v]
  | 0, _, _ => rfl
  | m + 1, x, v => by
    rw [List.replicate_succ x (m + 1), List.set_cons_succ, set_last_replicate m x v]
    rw [List.replicate_succ]
    rfl

/-- C5 counterexample: for the concrete table `tableW1` (cols = 2, box width
1), the interior width is -1, the truncating division gives quotient 0 and
remainder -1, and the code discards the non-positive remainder, producing
widths (0, 0), while the claim's rule of adding the integer remainder to the
last column prescribes (0, -1). -/
theorem calculateColumnWidths_C5_counterexample :
    tableW1.cols = 2 ∧ tableW1.width = 1 ∧
    tableW1.calculateColumnWidths.colWidths = [0, 0] ∧
    specColumnWidths tableW1.width tableW1.cols = [0, -1] ∧
    tableW1.calculateColumnWidths.colWidths
      ≠ specColumnWidths tableW1.width tableW1.cols := by
  decide

/-- C5 amended: for every Table with cols ≥ 1 whose box is at least 2 pixels
wide (so the interior width is non-negative), the automatic column-width
computation divides (box width − 2) evenly across the columns and adds the
integer remainder of the division to the last column's width; a 100-pixel box
with 2 columns yields widths (49, 49) and a 101-pixel box yields (49, 50).
(For boxes narrower than 2 pixels the negative remainder is discarded rather
than added — see the counterexample.) -/
theorem calculateColumnWidths_C5 (t : Table) (hcols : 1 ≤ t.cols)
    (hw : 2 ≤ t.width) :
    t.calculateColumnWidths.colWidths = specColumnWidths t.width t.cols ∧
    table100.calculateColumnWidths.colWidths = [49, 49] ∧
    table101.calculateColumnWidths.colWidths = [49, 50] := by
  refine ⟨?_, by decide, by decide⟩
  have hc0 : t.cols ≠ 0 := by omega
  have hA : (0 : Int) ≤ t.width - 2 := by omega
  have hdiv : Int.tdiv (t.width - 2) t.cols = (t.width - 2) / t.cols :=
    Int.tdiv_eq_ediv hA (by omega)
  have hrem : t.width - 2 - Int.tdiv (t.width - 2) t.cols * t.cols
      = (t.width - 2) % t.cols := by
    rw [hdiv]
    have := Int.ediv_add_emod (t.width - 2) t.cols
    linarith [this]
  have hremnn : (0 : Int) ≤ (t.width - 2) % t.cols :=
    Int.emod_nonneg _ (by omega)
  obtain ⟨m, hm⟩ : ∃ m, t.cols.toNat = m + 1 := ⟨t.cols.toNat - 1, by omega⟩
  unfold Table.calculateColumnWidths specColumnWidths
  rw [if_neg hc0]
  dsimp only
  rw [hm, Nat.add_sub_cancel]
  by_cases hpos : 0 < t.width - 2 - Int.tdiv (t.width - 2) t.cols * t.cols
  · rw [if_pos ⟨hpos, by omega⟩]
    exact set_last_replicate m _ _
  · rw [if_neg (by tauto)]
    have hz : t.width - 2 - Int.tdiv (t.width - 2) t.cols * t.cols = 0 := by
      rw [hrem] at hpos ⊢
      omega
    rw [hz, add_zero, List.replicate_succ']

/-- C5 amended witness: the division rule instantiated at the concrete
100-pixel-wide two-column table. -/
theorem calculateColumnWidths_C5_witness :
    table100.calculateColumnWidths.colWidths
      = specColumnWidths table100.width table100.cols :=
  (calculateColumnWidths_C5 table100 (by decide) (by decide)).1

/-- C9: on a table whose cell store holds `rows × cols` entries, `setCell`
followed by `getCell` at the same in-bounds `(row, col)` returns exactly the
stored text (no truncation at storage time, whatever the length), and
`getCell` at any out-of-bounds `(row, col)` returns the empty-string
sentinel. -/
theorem setCell_getCell_C9 (t : Table) (row col : Int) (text : String)
    (hlen : t.cells.length = (t.rows * t.cols).toNat)
    (hr0 : 0 ≤ row) (hr : row < t.rows) (hc0 : 0 ≤ col) (hc : col < t.cols) :
    (t.setCell row col text).getCell row col = text ∧
    (∀ r c : Int, ¬(0 ≤ r ∧ r < t.rows ∧ 0 ≤ c ∧ c < t.cols) →
      t.getCell r c = "") := by
  constructor
  · have hcpos : 0 < t.cols := lt_of_le_of_lt hc0 hc
    have hbnd : row * t.cols + col < t.rows * t.cols := by nlinarith
    have hidx0 : 0 ≤ row * t.cols + col := by positivity
    have hin : (0 ≤ row ∧ row < t.rows ∧ 0 ≤ col ∧ col < t.cols) :=
      ⟨hr0, hr, hc0, hc⟩
    have hix : t.getCellIndex row col = row * t.cols + col := by
      simp [Table.getCellIndex, hin]
    have hlt : (row * t.cols + col).toNat < t.cells.length := by
      rw [hlen]
      omega
    unfold Table.setCell Table.getCell
    rw [hix]
    rw [if_pos hidx0]
    have hix' : (({ t with cells := t.cells.set (row * t.cols + col).toNat text } :
        Table)).getCellIndex row col = row * t.cols + col := by
      simp [Table.getCellIndex, hin]
    rw [hix', if_pos hidx0]
    show (t.cells.set (row * t.cols + col).toNat text).getD
      (row * t.cols + col).toNat "" = text
    rw [List.getD_eq_getElem?_getD, List.getElem?_set_self (by simpa using hlt)]
    rfl
  · intro r c hout
    have hneg : t.getCellIndex r c = -1 := by
      simp only [Table.getCellIndex]
      rw [if_neg (by tauto)]
    unfold Table.getCell
    rw [hneg]
    rfl

/-- C9 witness: the round-trip and out-of-bounds sentinel instantiated at the
concrete 2×2 table, cell (1, 0) and a long text. -/
theorem setCell_getCell_C9_witness :
    (table22.setCell 1 0 "a string longer than any column").getCell 1 0
      = "a string longer than any column" ∧
    table22.getCell 2 0 = "" := by
  have h := setCell_getCell_C9 table22 1 0 "a string longer than any column"
    (by decide) (by decide) (by decide) (by decide) (by decide)
  exact ⟨h.1, h.2 2 0 (by decide)⟩

/-- C8 counterexample: `DataPlot::addPoint` does not reset the animation
counter — on the concrete plot `plotFrame2`, whose counter is 2, adding a
point leaves the counter at 2, not 0. -/
theorem content_setters_animation_C8_counterexample :
    plotFrame2.animationFrame = 2 ∧
    (plotFrame2.addPoint 5 5).animationFrame = 2 ∧
    (plotFrame2.addPoint 5 5).animationFrame ≠ 0 := by
  decide

/-- C8 amended: `setText` on a TextBox resets the owning widget's animation
counter to zero, but the content-mutating setters of DataPlot (`addPoint`,
`setData`, `clearData`) leave the animation counter unchanged — only the text
widget restarts its progressive-reveal animation on a content change. -/
theorem content_setters_animation_C8 (t : TextBox) (s : String) (p : DataPlot)
    (px py : ℚ) (pts : List (ℚ × ℚ)) :
    (t.setText s).animationFrame = 0 ∧
    (p.addPoint px py).animationFrame = p.animationFrame ∧
    (p.setData pts).animationFrame = p.animationFrame ∧
    p.clearData.animationFrame = p.animationFrame := by
  refine ⟨rfl, ?_, rfl, rfl⟩
  unfold DataPlot.addPoint
  split <;> rfl

/-- C4 (code bug): under binary32 round-to-nearest-even semantics — the
arithmetic the C++ `float` code actually performs — the range pipeline of
`calculateRanges` applied to a series of three identical points (1e8f, 1e8f)
leaves minX = maxX = 1e8f on both axes.  The degenerate-data guard fires and
substitutes the unit range, the padding 1.0f·0.1f = 0.1f is strictly
positive, yet it is smaller than half an ulp of 1e8f (the ulp is 8), so both
1e8f − 0.1f and 1e8f + 0.1f round back to 1e8f and the padding is absorbed.
The resulting domain has zero width, contradicting the claim's
strictly-positive width, and the next `mapX`/`mapY` call divides
(x − minX)/(maxX − minX) = 0/0 — the NaN the substitution (and the code's own
comment "Avoid division by zero for constant data") was meant to prevent. -/
theorem calculateRanges_float_absorption_C4 :
    calculateRangesF32 (List.replicate 3 (f32_1e8, f32_1e8))
      = some ((f32_1e8, f32_1e8), (f32_1e8, f32_1e8)) ∧
    F32.lt f32_zero (F32.mul f32_one f32_tenth) = true ∧
    F32.sub f32_1e8 f32_tenth = f32_1e8 ∧
    F32.add f32_1e8 f32_tenth = f32_1e8 := by
  decide

theorem dataPlot_applyRangeOps_inv (ops : List RangeOp) :
    ∀ p : DataPlot, p.minX < p.maxX → p.minY < p.maxY →
      (p.applyRangeOps ops).minX < (p.applyRangeOps ops).maxX ∧
      (p.applyRangeOps ops).minY < (p.applyRangeOps ops).maxY := by
  induction ops with
  | nil => intro p hx hy; exact ⟨hx, hy⟩
  | cons op rest ih =>
    intro p hx hy
    cases op with
    | xRange a b =>
      have hstep : p.applyRangeOps (RangeOp.xRange a b :: rest)
          = (p.setXRange a b).applyRangeOps rest := rfl
      rw [hstep]
      by_cases hab : a < b
      · have hset : p.setXRange a b
            = { p with minX := a, maxX := b, autoScale := false } := by
          unfold DataPlot.setXRange
          rw [if_pos hab]
        rw [hset]
        exact ih _ hab hy
      · have hset : p.setXRange a b = p := by
          unfold DataPlot.setXRange
          rw [if_neg hab]
        rw [hset]
        exact ih p hx hy
    | yRange a b =>
      have hstep : p.applyRangeOps (RangeOp.yRange a b :: rest)
          = (p.setYRange a b).applyRangeOps rest := rfl
      rw [hstep]
      by_cases hab : a < b
      · have hset : p.setYRange a b
            = { p with minY := a, maxY := b, autoScale := false } := by
          unfold DataPlot.setYRange
          rw [if_pos hab]
        rw [hset]
        exact ih _ hx hab
      · have hset : p.setYRange a b = p := by
          unfold DataPlot.setYRange
          rw [if_neg hab]
        rw [hset]
        exact ih p hx hy

theorem functionPlot_applyRangeOps_inv (ops : List RangeOp) :
    ∀ p : FunctionPlot, p.minX < p.maxX → p.minY < p.maxY →
      (p.applyRangeOps ops).minX < (p.applyRangeOps ops).maxX ∧
      (p.applyRangeOps ops).minY < (p.applyRangeOps ops).maxY := by
  induction ops with
  | nil => intro p hx hy; exact ⟨hx, hy⟩
  | cons op rest ih =>
    intro p hx hy
    cases op with
    | xRange a b =>
      have hstep : p.applyRangeOps (RangeOp.xRange a b :: rest)
          = (p.setXRange a b).applyRangeOps rest := rfl
      rw [hstep]
      by_cases hab : a < b
      · have hset : p.setXRange a b = { p with minX := a, maxX := b } := by
          unfold FunctionPlot.setXRange
          rw [if_pos hab]
        rw [hset]
        exact ih _ hab hy
      · have hset : p.setXRange a b = p := by
          unfold FunctionPlot.setXRange
          rw [if_neg hab]
        rw [hset]
        exact ih p hx hy
    | yRange a b =>
      have hstep : p.applyRangeOps (RangeOp.yRange a b :: rest)
          = (p.setYRange a b).applyRangeOps rest := rfl
      rw [hstep]
      by_cases hab : a < b
      · have hset : p.setYRange a b
            = { p with minY := a, maxY := b, autoScaleY := false } := by
          unfold FunctionPlot.setYRange
          rw [if_pos hab]
        rw [hset]
        exact ih _ hx hab
      · have hset : p.setYRange a b = p := by
          unfold FunctionPlot.setYRange
          rw [if_neg hab]
        rw [hset]
        exact ih p hx hy

/-- C10: a range setter called with min ≥ max leaves the whole widget state
unchanged (stored domain and auto-scale flag included) on both DataPlot and
FunctionPlot, and after any sequence of range-setter calls starting from the
constructor state the stored domain satisfies minX < maxX and minY < maxY on
both axes. -/
theorem setRange_guard_C10 :
    (∀ (p : DataPlot) (a b : ℚ), b ≤ a →
      p.setXRange a b = p ∧ p.setYRange a b = p) ∧
    (∀ (p : FunctionPlot) (a b : ℚ), b ≤ a →
      p.setXRange a b = p ∧ p.setYRange a b = p) ∧
    (∀ (x y w h : Int) (cap : Nat) (ops : List RangeOp),
      ((DataPlot.init x y w h cap).applyRangeOps ops).minX
        < ((DataPlot.init x y w h cap).applyRangeOps ops).maxX ∧
      ((DataPlot.init x y w h cap).applyRangeOps ops).minY
        < ((DataPlot.init x y w h cap).applyRangeOps ops).maxY) ∧
    (∀ (x y w h : Int) (func : Option (ℚ → Option ℚ)) (ops : List RangeOp),
      ((FunctionPlot.init x y w h func).applyRangeOps ops).minX
        < ((FunctionPlot.init x y w h func).applyRangeOps ops).maxX ∧
      ((FunctionPlot.init x y w h func).applyRangeOps ops).minY
        < ((FunctionPlot.init x y w h func).applyRangeOps ops).maxY) := by
  refine ⟨?_, ?_, ?_, ?_⟩
  · intro p a b hba
    constructor
    · unfold DataPlot.setXRange
      rw [if_neg (not_lt.mpr hba)]
    · unfold DataPlot.setYRange
      rw [if_neg (not_lt.mpr hba)]
  · intro p a b hba
    constructor
    · unfold FunctionPlot.setXRange
      rw [if_neg (not_lt.mpr hba)]
    · unfold FunctionPlot.setYRange
      rw [if_neg (not_lt.mpr hba)]
  · intro x y w h cap ops
    exact dataPlot_applyRangeOps_inv ops _ (by norm_num [DataPlot.init])
      (by norm_num [DataPlot.init])
  · intro x y w h func ops
    exact functionPlot_applyRangeOps_inv ops _ (by norm_num [FunctionPlot.init])
      (by norm_num [FunctionPlot.init])

/-- C10 witness: the failing setter leaves the concrete constructor-state
plots unchanged, and a concrete call sequence (one failing, one successful
call per axis) ends with well-ordered domains. -/
theorem setRange_guard_C10_witness :
    ((DataPlot.init 0 0 64 32 8).setXRange 5 3 = DataPlot.init 0 0 64 32 8) ∧
    ((FunctionPlot.init 0 0 64 32 none).setYRange 2 2
      = FunctionPlot.init 0 0 64 32 none) ∧
    (((DataPlot.init 0 0 64 32 8).applyRangeOps
        [RangeOp.xRange 5 3, RangeOp.yRange (-4) 4]).minX
      < ((DataPlot.init 0 0 64 32 8).applyRangeOps
        [RangeOp.xRange 5 3, RangeOp.yRange (-4) 4]).maxX) :=
  ⟨(setRange_guard_C10.1 (DataPlot.init 0 0 64 32 8) 5 3 (by norm_num)).1,
   (setRange_guard_C10.2.1 (FunctionPlot.init 0 0 64 32 none) 2 2 le_rfl).2,
   (setRange_guard_C10.2.2.1 0 0 64 32 8
     [RangeOp.xRange 5 3, RangeOp.yRange (-4) 4]).1⟩

theorem textBox_drawStep_iterate (t : TextBox) (hv : t.visible = true)
    (ha : t.animate = true) (h0 : t.animationFrame = 0) (n : Nat) :
    TextBox.drawStep^[n] t = { t with animationFrame := min n t.text.length } := by
  induction n with
  | zero =>
    rw [Function.iterate_zero_apply, Nat.zero_min, ← h0]
  | succ n ih =>
    rw [Function.iterate_succ_apply', ih]
    unfold TextBox.drawStep
    dsimp only
    rw [hv, ha]
    rw [if_neg (by simp)]
    by_cases hlt : min n t.text.length < t.text.length
    · rw [if_pos (by simpa using hlt)]
      have : min n t.text.length + 1 = min (n + 1) t.text.length := by omega
      rw [this]
    · rw [if_neg (by simpa using hlt)]
      have : min n t.text.length = min (n + 1) t.text.length := by omega
      rw [this]

theorem textBox_drawRendered_iterate (t : TextBox) (hv : t.visible = true)
    (ha : t.animate = true) (h0 : t.animationFrame = 0) (n : Nat) :
    (TextBox.drawStep^[n] t).drawRendered = min n t.text.length := by
  rw [textBox_drawStep_iterate t hv ha h0 n]
  unfold TextBox.drawRendered
  dsimp only
  rw [hv, ha]
  rw [if_neg (by simp)]
  by_cases hlt : min n t.text.length < t.text.length
  · rw [if_pos (by simpa using hlt)]
  · rw [if_neg (by simpa using hlt)]
    omega

theorem calculateRanges_fields (p : DataPlot) :
    p.calculateRanges.data = p.data ∧ p.calculateRanges.visible = p.visible ∧
    p.calculateRanges.animate = p.animate ∧
    p.calculateRanges.autoScale = p.autoScale ∧
    p.calculateRanges.animationFrame = p.animationFrame := by
  unfold DataPlot.calculateRanges
  split
  · exact ⟨rfl, rfl, rfl, rfl, rfl⟩
  · exact ⟨rfl, rfl, rfl, rfl, rfl⟩

theorem dataPlot_scaled_fields (p : DataPlot) :
    (if p.autoScale = true then p.calculateRanges else p).data = p.data ∧
    (if p.autoScale = true then p.calculateRanges else p).visible = p.visible ∧
    (if p.autoScale = true then p.calculateRanges else p).animate = p.animate ∧
    (if p.autoScale = true then p.calculateRanges else p).animationFrame
      = p.animationFrame := by
  by_cases h : p.autoScale = true
  · rw [if_pos h]
    obtain ⟨h1, h2, h3, _, h5⟩ := calculateRanges_fields p
    exact ⟨h1, h2, h3, h5⟩
  · rw [if_neg h]
    exact ⟨rfl, rfl, rfl, rfl⟩

theorem dataPlot_drawStep_eq (q : DataPlot) (hv : q.visible = true)
    (hlen : q.data.length ≠ 0) :
    q.drawStep = (if q.autoScale = true then q.calculateRanges else q).drawAdvance := by
  unfold DataPlot.drawStep
  rw [if_neg (by simp [hv, hlen])]

theorem dataPlot_drawStep_iterate (p : DataPlot) (hv : p.visible = true)
    (ha : p.animate = true) (h0 : p.animationFrame = 0) (hne : p.data ≠ [])
    (n : Nat) :
    (DataPlot.drawStep^[n] p).data = p.data ∧
    (DataPlot.drawStep^[n] p).visible = true ∧
    (DataPlot.drawStep^[n] p).animate = true ∧
    (DataPlot.drawStep^[n] p).animationFrame = min n p.data.length := by
  induction n with
  | zero =>
    rw [Function.iterate_zero_apply, Nat.zero_min]
    exact ⟨rfl, hv, ha, h0⟩
  | succ n ih =>
    obtain ⟨hd, hv', ha', hf⟩ := ih
    rw [Function.iterate_succ_apply']
    set q := DataPlot.drawStep^[n] p with hq
    have hlen : q.data.length ≠ 0 := by
      rw [hd]
      simpa [List.length_eq_zero] using hne
    rw [dataPlot_drawStep_eq q hv' hlen]
    obtain ⟨g1, g2, g3, g4⟩ := dataPlot_scaled_fields q
    set r := if q.autoScale = true then q.calculateRanges else q with hr
    by_cases hlt : min n p.data.length < p.data.length
    · have hcond : r.animate = true ∧ r.animationFrame < r.data.length := by
        rw [g3, ha', g4, hf, g1, hd]
        exact ⟨rfl, hlt⟩
      have hadv : r.drawAdvance = { r with animationFrame := r.animationFrame + 1 } := by
        unfold DataPlot.drawAdvance
        rw [if_pos hcond]
      rw [hadv]
      refine ⟨?_, ?_, ?_, ?_⟩
      · show r.data = p.data
        rw [g1, hd]
      · show r.visible = true
        rw [g2, hv']
      · show r.animate = true
        rw [g3, ha']
      · show r.animationFrame + 1 = min (n + 1) p.data.length
        rw [g4, hf]
        omega
    · have hcond : ¬ (r.animate = true ∧ r.animationFrame < r.data.length) := by
        rw [g3, ha', g4, hf, g1, hd]
        simpa using hlt
      have hadv : r.drawAdvance = r := by
        unfold DataPlot.drawAdvance
        rw [if_neg hcond]
      rw [hadv]
      refine ⟨by rw [g1, hd], by rw [g2, hv'], by rw [g3, ha'], ?_⟩
      rw [g4, hf]
      omega

theorem dataPlot_drawRendered_iterate (p : DataPlot) (hv : p.visible = true)
    (ha : p.animate = true) (h0 : p.animationFrame = 0) (hne : p.data ≠ [])
    (n : Nat) :
    (DataPlot.drawStep^[n] p).drawRendered = min n p.data.length := by
  obtain ⟨hd, hv', ha', hf⟩ := dataPlot_drawStep_iterate p hv ha h0 hne n
  have hlen : ¬ (DataPlot.drawStep^[n] p).data.length = 0 := by
    rw [hd]
    simpa [List.length_eq_zero] using hne
  unfold DataPlot.drawRendered
  rw [if_neg (by simp [hv', hlen])]
  by_cases hlt : min n p.data.length < p.data.length
  · rw [if_pos (by rw [ha', hf, hd]; exact ⟨rfl, hlt⟩), hf]
  · rw [if_neg (by rw [ha', hf, hd]; simpa using hlt), hd]
    omega

theorem contentRect_wh_pos (x y w h a : Int) (s : Bool) :
    0 < (computeContentRect x y w h a s).2.2.1 ∧
    0 < (computeContentRect x y w h a s).2.2.2 := by
  unfold computeContentRect
  dsimp only
  constructor
  · split <;> omega
  · split <;> omega

theorem functionPlot_update_contentRect (p : FunctionPlot) (k : Nat) :
    ({ p with animationFrame := k } : FunctionPlot).contentRect = p.contentRect :=
  rfl

theorem functionPlot_drawStep_iterate (p : FunctionPlot) (hv : p.visible = true)
    (ha : p.animate = true) (h0 : p.animationFrame = 0)
    (hfn : p.function.isSome = true) (n : Nat) :
    FunctionPlot.drawStep^[n] p
      = { p with animationFrame := min n p.contentRect.2.2.1.toNat } := by
  have hB : 0 < p.contentRect.2.2.1 :=
    (contentRect_wh_pos p.x p.y p.width p.height p.axisLabelSize p.showAxisLabels).1
  induction n with
  | zero =>
    rw [Function.iterate_zero_apply, Nat.zero_min, ← h0]
  | succ n ih =>
    rw [Function.iterate_succ_apply', ih]
    unfold FunctionPlot.drawStep
    rw [if_neg (show ¬ (({ p with animationFrame := min n p.contentRect.2.2.1.toNat }
        : FunctionPlot).visible = false ∨
        ({ p with animationFrame := min n p.contentRect.2.2.1.toNat }
        : FunctionPlot).function.isSome = false) by simp [hv, hfn])]
    split
    · next hcond =>
        have hlt : ((min n p.contentRect.2.2.1.toNat : Nat) : Int)
            < p.contentRect.2.2.1 := hcond.2
        show ({ p with animationFrame := min n p.contentRect.2.2.1.toNat + 1 }
            : FunctionPlot) = _
        have heq : min n p.contentRect.2.2.1.toNat + 1
            = min (n + 1) p.contentRect.2.2.1.toNat := by omega
        rw [heq]
    · next hcond =>
        have hnlt : ¬ ((min n p.contentRect.2.2.1.toNat : Nat) : Int)
            < p.contentRect.2.2.1 := fun hlt => hcond ⟨ha, hlt⟩
        show ({ p with animationFrame := min n p.contentRect.2.2.1.toNat }
            : FunctionPlot) = _
        have heq : min n p.contentRect.2.2.1.toNat
            = min (n + 1) p.contentRect.2.2.1.toNat := by omega
        rw [heq]

theorem functionPlot_drawRendered_iterate (p : FunctionPlot)
    (hv : p.visible = true) (ha : p.animate = true) (h0 : p.animationFrame = 0)
    (hfn : p.function.isSome = true) (n : Nat) :
    (FunctionPlot.drawStep^[n] p).drawRendered
      = min n p.contentRect.2.2.1.toNat := by
  have hB : 0 < p.contentRect.2.2.1 :=
    (contentRect_wh_pos p.x p.y p.width p.height p.axisLabelSize p.showAxisLabels).1
  rw [functionPlot_drawStep_iterate p hv ha h0 hfn n]
  unfold FunctionPlot.drawRendered
  rw [if_neg (show ¬ (({ p with animationFrame := min n p.contentRect.2.2.1.toNat }
      : FunctionPlot).visible = false ∨
      ({ p with animationFrame := min n p.contentRect.2.2.1.toNat }
      : FunctionPlot).function.isSome = false) by simp [hv, hfn])]
  split
  · rfl
  · next hcond =>
      have hnlt : ¬ ((min n p.contentRect.2.2.1.toNat : Nat) : Int)
          < p.contentRect.2.2.1 := fun hlt => hcond ⟨ha, hlt⟩
      show p.contentRect.2.2.1.toNat = min n p.contentRect.2.2.1.toNat
      omega

/-- C7: starting from a freshly constructed widget with `setAnimate(true)`
(visible, frame 0), for each of the three animated widgets — TextBox,
DataPlot (non-empty series) and FunctionPlot (non-null function) — each
successive `draw` call advances the animation counter by at most one step and
by exactly one while the counter is below its bound, and the number of
rendered elements (characters / data points / sample columns) after n calls
is non-decreasing in n, bounded by the call index, and bounded by the
widget's element count (text length / series length) or content width. -/
theorem reveal_animation_C7 :
    (∀ t : TextBox, t.visible = true → t.animate = true → t.animationFrame = 0 →
      ∀ m n : Nat, m ≤ n →
        (TextBox.drawStep^[n + 1] t).animationFrame
            ≤ (TextBox.drawStep^[n] t).animationFrame + 1 ∧
        ((TextBox.drawStep^[n] t).animationFrame < t.text.length →
          (TextBox.drawStep^[n + 1] t).animationFrame
            = (TextBox.drawStep^[n] t).animationFrame + 1) ∧
        (TextBox.drawStep^[m] t).drawRendered
            ≤ (TextBox.drawStep^[n] t).drawRendered ∧
        (TextBox.drawStep^[n] t).drawRendered ≤ n ∧
        (TextBox.drawStep^[n] t).drawRendered ≤ t.text.length) ∧
    (∀ p : DataPlot, p.visible = true → p.animate = true → p.animationFrame = 0 →
      p.data ≠ [] → ∀ m n : Nat, m ≤ n →
        (DataPlot.drawStep^[n + 1] p).animationFrame
            ≤ (DataPlot.drawStep^[n] p).animationFrame + 1 ∧
        ((DataPlot.drawStep^[n] p).animationFrame < p.data.length →
          (DataPlot.drawStep^[n + 1] p).animationFrame
            = (DataPlot.drawStep^[n] p).animationFrame + 1) ∧
        (DataPlot.drawStep^[m] p).drawRendered
            ≤ (DataPlot.drawStep^[n] p).drawRendered ∧
        (DataPlot.drawStep^[n] p).drawRendered ≤ n ∧
        (DataPlot.drawStep^[n] p).drawRendered ≤ p.data.length) ∧
    (∀ p : FunctionPlot, p.visible = true → p.animate = true →
      p.animationFrame = 0 → p.function.isSome = true → ∀ m n : Nat, m ≤ n →
        (FunctionPlot.drawStep^[n + 1] p).animationFrame
            ≤ (FunctionPlot.drawStep^[n] p).animationFrame + 1 ∧
        ((FunctionPlot.drawStep^[n] p).animationFrame
            < p.contentRect.2.2.1.toNat →
          (FunctionPlot.drawStep^[n + 1] p).animationFrame
            = (FunctionPlot.drawStep^[n] p).animationFrame + 1) ∧
        (FunctionPlot.drawStep^[m] p).drawRendered
            ≤ (FunctionPlot.drawStep^[n] p).drawRendered ∧
        (FunctionPlot.drawStep^[n] p).drawRendered ≤ n ∧
        (FunctionPlot.drawStep^[n] p).drawRendered
            ≤ p.contentRect.2.2.1.toNat) := by
  refine ⟨?_, ?_, ?_⟩
  · intro t hv ha h0 m n hmn
    have hfn1 := textBox_drawStep_iterate t hv ha h0 (n + 1)
    have hfn := textBox_drawStep_iterate t hv ha h0 n
    have hrm := textBox_drawRendered_iterate t hv ha h0 m
    have hrn := textBox_drawRendered_iterate t hv ha h0 n
    rw [hrm, hrn, hfn1, hfn]
    show min (n + 1) t.text.length ≤ min n t.text.length + 1 ∧
      (min n t.text.length < t.text.length →
        min (n + 1) t.text.length = min n t.text.length + 1) ∧ _ ∧ _ ∧ _
    refine ⟨by omega, by omega, by omega, by omega, by omega⟩
  · intro p hv ha h0 hne m n hmn
    obtain ⟨_, _, _, hfn1⟩ := dataPlot_drawStep_iterate p hv ha h0 hne (n + 1)
    obtain ⟨_, _, _, hfn⟩ := dataPlot_drawStep_iterate p hv ha h0 hne n
    have hrm := dataPlot_drawRendered_iterate p hv ha h0 hne m
    have hrn := dataPlot_drawRendered_iterate p hv ha h0 hne n
    rw [hrm, hrn, hfn1, hfn]
    refine ⟨by omega, by omega, by omega, by omega, by omega⟩
  · intro p hv ha h0 hsome m n hmn
    have hfn1 := functionPlot_drawStep_iterate p hv ha h0 hsome (n + 1)
    have hfn := functionPlot_drawStep_iterate p hv ha h0 hsome n
    have hrm := functionPlot_drawRendered_iterate p hv ha h0 hsome m
    have hrn := functionPlot_drawRendered_iterate p hv ha h0 hsome n
    rw [hrm, hrn, hfn1, hfn]
    show min (n + 1) p.contentRect.2.2.1.toNat
        ≤ min n p.contentRect.2.2.1.toNat + 1 ∧
      (min n p.contentRect.2.2.1.toNat < p.contentRect.2.2.1.toNat →
        min (n + 1) p.contentRect.2.2.1.toNat
          = min n p.contentRect.2.2.1.toNat + 1) ∧ _ ∧ _ ∧ _
    refine ⟨by omega, by omega, by omega, by omega, by omega⟩

/-- C7 witness: the counter-advance and bounded non-decreasing reveal
instantiated at the three concrete animated widgets, at calls 2 ≤ 3. -/
theorem reveal_animation_C7_witness :
    ((TextBox.drawStep^[3] boxAnim).drawRendered ≤ 3 ∧
     (TextBox.drawStep^[3] boxAnim).drawRendered ≤ boxAnim.text.length) ∧
    ((DataPlot.drawStep^[2] plotAnim).drawRendered
        ≤ (DataPlot.drawStep^[3] plotAnim).drawRendered ∧
     (DataPlot.drawStep^[3] plotAnim).drawRendered ≤ plotAnim.data.length) ∧
    ((FunctionPlot.drawStep^[3] funcAnim).drawRendered
        ≤ funcAnim.contentRect.2.2.1.toNat) := by
  have h1 := reveal_animation_C7.1 boxAnim rfl rfl rfl 2 3 (by omega)
  have h2 := reveal_animation_C7.2.1 plotAnim rfl rfl rfl (by decide) 2 3 (by omega)
  have h3 := reveal_animation_C7.2.2 funcAnim rfl rfl rfl rfl 2 3 (by omega)
  exact ⟨⟨h1.2.2.2.1, h1.2.2.2.2⟩, ⟨h2.2.2.1, h2.2.2.2.2⟩, h3.2.2.2.2⟩

theorem ftrunc_of_nonneg {q : ℚ} (h : 0 ≤ q) : ftrunc q = ⌊q⌋ := by
  unfold ftrunc
  rw [Int.tdiv_eq_ediv (Rat.num_nonneg.mpr h) (Int.natCast_nonneg q.den)]
  rw [Rat.floor_def]

theorem plotRecip_contentRect : plotRecip.contentRect = (2, 2, 124, 60) := rfl

theorem plotRecip_sampleX61 : plotRecip.sampleX 61 = -(100 / 123) := by
  unfold FunctionPlot.sampleX
  rw [plotRecip_contentRect]
  show plotRecip.minX + (plotRecip.maxX - plotRecip.minX) * (61 : ℚ)
      / (((124 : Int) : ℚ) - 1) = _
  norm_num [plotRecip, FunctionPlot.init]

theorem plotRecip_sampleX62 : plotRecip.sampleX 62 = 100 / 123 := by
  unfold FunctionPlot.sampleX
  rw [plotRecip_contentRect]
  show plotRecip.minX + (plotRecip.maxX - plotRecip.minX) * (62 : ℚ)
      / (((124 : Int) : ℚ) - 1) = _
  norm_num [plotRecip, FunctionPlot.init]

theorem recipFn_at61 : recipFn (-(100 / 123)) = some (-(123 / 100)) := by
  unfold recipFn
  rw [if_neg (by norm_num)]
  norm_num

theorem recipFn_at62 : recipFn (100 / 123) = some (123 / 100) := by
  unfold recipFn
  rw [if_neg (by norm_num)]
  norm_num

theorem plotRecip_mapX61 : plotRecip.mapX (-(100 / 123)) = 63 := by
  unfold FunctionPlot.mapX
  rw [plotRecip_contentRect]
  show (2 : Int) + ftrunc ((-(100 / 123) - plotRecip.minX)
      / (plotRecip.maxX - plotRecip.minX) * (((124 : Int) : ℚ) - 1)) = 63
  have harg : (-(100 / 123) - plotRecip.minX)
      / (plotRecip.maxX - plotRecip.minX) * (((124 : Int) : ℚ) - 1) = 61 := by
    norm_num [plotRecip, FunctionPlot.init]
  rw [harg, ftrunc_of_nonneg (by norm_num)]
  have hfl : ⌊(61 : ℚ)⌋ = 61 := by
    rw [Int.floor_eq_iff]
    norm_num
  rw [hfl]
  decide

theorem plotRecip_mapX62 : plotRecip.mapX (100 / 123) = 64 := by
  unfold FunctionPlot.mapX
  rw [plotRecip_contentRect]
  show (2 : Int) + ftrunc (((100 / 123) - plotRecip.minX)
      / (plotRecip.maxX - plotRecip.minX) * (((124 : Int) : ℚ) - 1)) = 64
  have harg : ((100 / 123 : ℚ) - plotRecip.minX)
      / (plotRecip.maxX - plotRecip.minX) * (((124 : Int) : ℚ) - 1) = 62 := by
    norm_num [plotRecip, FunctionPlot.init]
  rw [harg, ftrunc_of_nonneg (by norm_num)]
  have hfl : ⌊(62 : ℚ)⌋ = 62 := by
    rw [Int.floor_eq_iff]
    norm_num
  rw [hfl]
  decide

theorem plotRecip_mapY61 : plotRecip.mapY (-(123 / 100)) = 32 := by
  unfold FunctionPlot.mapY
  rw [plotRecip_contentRect]
  show (2 : Int) + 60 - 1 - ftrunc ((-(123 / 100) - plotRecip.minY)
      / (plotRecip.maxY - plotRecip.minY) * (((60 : Int) : ℚ) - 1)) = 32
  have harg : (-(123 / 100 : ℚ) - plotRecip.minY)
      / (plotRecip.maxY - plotRecip.minY) * (((60 : Int) : ℚ) - 1)
      = 5892743 / 200000 := by
    norm_num [plotRecip, FunctionPlot.init]
  rw [harg, ftrunc_of_nonneg (by norm_num)]
  have hfl : ⌊(5892743 / 200000 : ℚ)⌋ = 29 := by
    rw [Int.floor_eq_iff]
    norm_num
  rw [hfl]
  decide

theorem plotRecip_mapY62 : plotRecip.mapY (123 / 100) = 32 := by
  unfold FunctionPlot.mapY
  rw [plotRecip_contentRect]
  show (2 : Int) + 60 - 1 - ftrunc (((123 / 100) - plotRecip.minY)
      / (plotRecip.maxY - plotRecip.minY) * (((60 : Int) : ℚ) - 1)) = 32
  have harg : ((123 / 100 : ℚ) - plotRecip.minY)
      / (plotRecip.maxY - plotRecip.minY) * (((60 : Int) : ℚ) - 1)
      = 5907257 / 200000 := by
    norm_num [plotRecip, FunctionPlot.init]
  rw [harg, ftrunc_of_nonneg (by norm_num)]
  have hfl : ⌊(5907257 / 200000 : ℚ)⌋ = 29 := by
    rw [Int.floor_eq_iff]
    norm_num
  rw [hfl]
  decide

theorem plotRecip_step61 (st : SampleState) :
    (plotRecip.sampleStep recipFn st 61).prevX = 63 ∧
    (plotRecip.sampleStep recipFn st 61).prevY = 32 ∧
    (plotRecip.sampleStep recipFn st 61).prevValid = true := by
  unfold FunctionPlot.sampleStep
  rw [plotRecip_sampleX61]
  dsimp only
  rw [recipFn_at61]
  dsimp only
  rw [if_neg (show ¬ ((-(123 / 100) : ℚ) < plotRecip.minY ∨
      plotRecip.maxY < -(123 / 100)) by norm_num [plotRecip, FunctionPlot.init])]
  exact ⟨plotRecip_mapX61, plotRecip_mapY61, rfl⟩

theorem plotRecip_step62 (st : SampleState) (h1 : st.prevValid = true)
    (h2 : st.prevX = 63) (h3 : st.prevY = 32) :
    (plotRecip.sampleStep recipFn st 62).cmds
      = st.cmds ++ [PlotCmd.line 63 32 64 32] := by
  unfold FunctionPlot.sampleStep
  rw [plotRecip_sampleX62]
  dsimp only
  rw [recipFn_at62]
  dsimp only
  rw [if_neg (show ¬ (((123 / 100) : ℚ) < plotRecip.minY ∨
      plotRecip.maxY < (123 / 100)) by norm_num [plotRecip, FunctionPlot.init])]
  show (if st.prevValid = true ∧
      |plotRecip.mapY (123 / 100) - st.prevY| < plotRecip.height then
        st.cmds ++ [PlotCmd.line st.prevX st.prevY
          (plotRecip.mapX (100 / 123)) (plotRecip.mapY (123 / 100))]
      else st.cmds ++ [PlotCmd.point
        (plotRecip.mapX (100 / 123)) (plotRecip.mapY (123 / 100))]) = _
  rw [if_pos ⟨h1, by rw [plotRecip_mapY62, h3]; norm_num [plotRecip, FunctionPlot.init]⟩]
  rw [h2, h3, plotRecip_mapX62, plotRecip_mapY62]

theorem sampleStep_cmds_mono (p : FunctionPlot) (f : ℚ → Option ℚ)
    (st : SampleState) (i : Nat) (cmd : PlotCmd) (h : cmd ∈ st.cmds) :
    cmd ∈ (p.sampleStep f st i).cmds := by
  unfold FunctionPlot.sampleStep
  dsimp only
  split
  · exact h
  · split
    · exact h
    · dsimp only
      split
      · exact List.mem_append_left _ h
      · exact List.mem_append_left _ h

theorem foldl_sampleStep_cmds_mono (p : FunctionPlot) (f : ℚ → Option ℚ)
    (l : List Nat) : ∀ (st : SampleState) (cmd : PlotCmd), cmd ∈ st.cmds →
      cmd ∈ (l.foldl (p.sampleStep f) st).cmds := by
  induction l with
  | nil => intro st cmd h; exact h
  | cons i rest ih =>
    intro st cmd h
    exact ih _ cmd (sampleStep_cmds_mono p f st i cmd h)

/-- C6 counterexample: on the concrete `plotRecip` — the function `1/x`
sampled over the x-domain `[-100, 100]` spanning zero with the wide y-domain
`[-1000, 1000]` — the consecutive samples at columns 61 and 62 straddle zero
(sample values -100/123 < 0 < 100/123), both reciprocal values ±123/100 lie
inside the y-domain and land on the same pixel row, so one `draw` pass
connects the sample just before zero to the sample just after zero with a
line, contradicting the claim that this never happens. -/
theorem functionPlot_1overx_C6_counterexample :
    plotRecip.sampleX 61 < 0 ∧ 0 < plotRecip.sampleX 62 ∧
    PlotCmd.line 63 32 64 32 ∈ plotRecip.drawSamples ∧
    PlotCmd.line 63 32 64 32
      = PlotCmd.line (plotRecip.mapX (plotRecip.sampleX 61))
          (plotRecip.mapY (-(123 / 100)))
          (plotRecip.mapX (plotRecip.sampleX 62))
          (plotRecip.mapY (123 / 100)) := by
  refine ⟨by rw [plotRecip_sampleX61]; norm_num,
    by rw [plotRecip_sampleX62]; norm_num, ?_, ?_⟩
  · have hds : plotRecip.drawSamples
        = ((List.range 124).foldl (plotRecip.sampleStep recipFn)
            { prevX := -1, prevY := -1, prevValid := false, cmds := [] }).cmds := rfl
    rw [hds]
    have h124 : List.range 124
        = List.range 63 ++ List.map (fun x => 63 + x) (List.range 61) := by
      rw [← List.range_add]
    rw [h124, List.foldl_append]
    apply foldl_sampleStep_cmds_mono
    have h63 : List.range 63 = List.range 62 ++ [62] := List.range_succ 62
    have h62 : List.range 62 = List.range 61 ++ [61] := List.range_succ 61
    rw [h63, h62, List.foldl_append, List.foldl_append]
    show PlotCmd.line 63 32 64 32 ∈ (plotRecip.sampleStep recipFn
      (plotRecip.sampleStep recipFn
        ((List.range 61).foldl (plotRecip.sampleStep recipFn)
          { prevX := -1, prevY := -1, prevValid := false, cmds := [] }) 61) 62).cmds
    obtain ⟨e1, e2, e3⟩ := plotRecip_step61
      ((List.range 61).foldl (plotRecip.sampleStep recipFn)
        { prevX := -1, prevY := -1, prevValid := false, cmds := [] })
    rw [plotRecip_step62 _ e3 e1 e2]
    exact List.mem_append_right _ (List.mem_singleton.mpr rfl)
  · rw [plotRecip_sampleX61, plotRecip_sampleX62, plotRecip_mapX61,
      plotRecip_mapX62, plotRecip_mapY61, plotRecip_mapY62]

/-- C6 amended: in the sampling loop of `FunctionPlot::draw`, a sample whose
function value is non-finite or outside the Y domain breaks the polyline (the
state records no new command and clears the validity flag); the next valid
sample after a break is drawn as an isolated point, not connected backward; a
valid sample whose vertical pixel delta from the previous valid sample is at
least the widget height is likewise drawn as an isolated point; and any newly
drawn line always connects the previous valid sample to the current one and
only occurs when the previous sample was valid and the delta is below the
widget height.  (Sampling `1/x` across a domain spanning zero therefore does
not connect the straddling samples whenever one of them is non-finite,
out-of-range, or at least the widget height away vertically — but with a
sufficiently wide Y domain both straddling samples are valid and close, and
the code does connect them; see the counterexample.) -/
theorem functionPlot_polyline_break_C6 (p : FunctionPlot) (f : ℚ → Option ℚ)
    (st : SampleState) (i : Nat) :
    (f (p.sampleX i) = none → p.sampleStep f st i = { st with prevValid := false }) ∧
    (∀ fy, f (p.sampleX i) = some fy → (fy < p.minY ∨ p.maxY < fy) →
      p.sampleStep f st i = { st with prevValid := false }) ∧
    (∀ fy, f (p.sampleX i) = some fy → ¬(fy < p.minY ∨ p.maxY < fy) →
      st.prevValid = false →
      (p.sampleStep f st i).cmds
        = st.cmds ++ [PlotCmd.point (p.mapX (p.sampleX i)) (p.mapY fy)]) ∧
    (∀ fy, f (p.sampleX i) = some fy → ¬(fy < p.minY ∨ p.maxY < fy) →
      st.prevValid = true → ¬ |p.mapY fy - st.prevY| < p.height →
      (p.sampleStep f st i).cmds
        = st.cmds ++ [PlotCmd.point (p.mapX (p.sampleX i)) (p.mapY fy)]) ∧
    (∀ fy, f (p.sampleX i) = some fy → ¬(fy < p.minY ∨ p.maxY < fy) →
      ∀ x0 y0 x1 y1, PlotCmd.line x0 y0 x1 y1 ∈ (p.sampleStep f st i).cmds →
        PlotCmd.line x0 y0 x1 y1 ∈ st.cmds ∨
        (st.prevValid = true ∧ |p.mapY fy - st.prevY| < p.height ∧
          x0 = st.prevX ∧ y0 = st.prevY ∧
          x1 = p.mapX (p.sampleX i) ∧ y1 = p.mapY fy)) := by
  refine ⟨?_, ?_, ?_, ?_, ?_⟩
  · intro hnone
    unfold FunctionPlot.sampleStep
    dsimp only
    rw [hnone]
  · intro fy hsome hout
    unfold FunctionPlot.sampleStep
    dsimp only
    rw [hsome]
    dsimp only
    rw [if_pos hout]
  · intro fy hsome hin hpv
    unfold FunctionPlot.sampleStep
    dsimp only
    rw [hsome]
    dsimp only
    rw [if_neg hin]
    show (if st.prevValid = true ∧ |p.mapY fy - st.prevY| < p.height
        then st.cmds ++ [PlotCmd.line st.prevX st.prevY (p.mapX (p.sampleX i)) (p.mapY fy)]
        else st.cmds ++ [PlotCmd.point (p.mapX (p.sampleX i)) (p.mapY fy)]) = _
    rw [if_neg (by rw [hpv]; simp)]
  · intro fy hsome hin hpv hdelta
    unfold FunctionPlot.sampleStep
    dsimp only
    rw [hsome]
    dsimp only
    rw [if_neg hin]
    show (if st.prevValid = true ∧ |p.mapY fy - st.prevY| < p.height
        then st.cmds ++ [PlotCmd.line st.prevX st.prevY (p.mapX (p.sampleX i)) (p.mapY fy)]
        else st.cmds ++ [PlotCmd.point (p.mapX (p.sampleX i)) (p.mapY fy)]) = _
    rw [if_neg (by rw [hpv]; simpa using hdelta)]
  · intro fy hsome hin x0 y0 x1 y1 hmem
    unfold FunctionPlot.sampleStep at hmem
    dsimp only at hmem
    rw [hsome] at hmem
    dsimp only at hmem
    rw [if_neg hin] at hmem
    by_cases hc : st.prevValid = true ∧ |p.mapY fy - st.prevY| < p.height
    · rw [if_pos hc] at hmem
      rcases List.mem_append.mp hmem with hold | hnew
      · exact Or.inl hold
      · rcases List.mem_singleton.mp hnew with heq
        injection heq with hx0 hy0 hx1 hy1
        exact Or.inr ⟨hc.1, hc.2, hx0, hy0, hx1, hy1⟩
    · rw [if_neg hc] at hmem
      rcases List.mem_append.mp hmem with hold | hnew
      · exact Or.inl hold
      · exact absurd (List.mem_singleton.mp hnew) (by simp)

/-- C6 amended witness: the isolated-point rule instantiated at sample 61 of
the concrete `1/x` plot starting from the initial loop state (no previous
valid sample). -/
theorem functionPlot_polyline_break_C6_witness :
    (plotRecip.sampleStep recipFn
        { prevX := -1, prevY := -1, prevValid := false, cmds := [] } 61).cmds
      = [] ++ [PlotCmd.point (plotRecip.mapX (plotRecip.sampleX 61))
          (plotRecip.mapY (-(123 / 100)))] :=
  (functionPlot_polyline_break_C6 plotRecip recipFn
      { prevX := -1, prevY := -1, prevValid := false, cmds := [] } 61).2.2.1
    (-(123 / 100)) (by rw [plotRecip_sampleX61]; exact recipFn_at61)
    (by norm_num [plotRecip, FunctionPlot.init]) rfl

end CT5061
